import Mathlib

/-!
Shallow embedding of the Dropbox OAuth token-lifecycle core of the
creative-automation repository.

Sources embedded:
* `src/backend/services/dropboxService.js`:
  `DropboxService.isTokenExpired`, `DropboxService.refreshAccessToken`,
  `DropboxService.ensureValidToken`.
* `src/unnamed/part_005` (backend `Account` model): `Account.update`.
* `src/unnamed/part_001` (frontend `DropboxService`): duplicate
  `isTokenExpired`.

Modelling conventions:
* Timestamps (ISO strings / `Date` values in the source) are modelled as
  `Int` milliseconds since the epoch; `Date.now()` is an explicit `now`
  parameter.  Comparison of `Date` objects corresponds to `≤` on `Int`.
* Nullable JS strings are `Option String`; JS falsiness of a string value
  (`!s`, `s || t`) is `falsyStr` (null/undefined/empty string).
* The axios network round-trip inside `refreshAccessToken` is an explicit
  parameter `net : Except String RefreshResponse`: `.ok` is the parsed
  response body, `.error cause` is a failed request, `cause` standing for
  `error.response?.data?.error_description || error.message`.
* Thrown `Error` objects are an explicit error type whose constructors
  correspond one-to-one to the `throw new Error(...)` sites reachable from
  `ensureValidToken`, carrying the interpolated message where the source
  interpolates one.
* `ensureValidToken` returns a `Run` recording, besides the result, how
  many times the OAuth exchanger (the axios POST) was invoked and the list
  of account records persisted via `account.update` (store writes).
-/

/-- JS falsiness of a nullable string: `null`/`undefined` or `""`. -/
def falsyStr : Option String → Bool
  | none => true
  | some s => s == ""

/-- `DropboxService.isTokenExpired` (backend, dropboxService.js lines
165-174): no expiration time counts as expired; otherwise expired iff
`expirationTime <= now + bufferMinutes * 60 * 1000`. -/
def isTokenExpired (expiresAt : Option Int) (bufferMinutes now : Int) : Bool :=
  match expiresAt with
  | none => true
  | some e => decide (e ≤ now + bufferMinutes * 60 * 1000)

/-- `DropboxService.isTokenExpired` (frontend, src/unnamed/part_001 lines
57-62): the frontend duplicate of the staleness predicate. -/
def isTokenExpiredFrontend (expiresAt : Option Int) (bufferMinutes now : Int) : Bool :=
  match expiresAt with
  | none => true
  | some e => decide (e ≤ now + bufferMinutes * 60 * 1000)

/-- The backend `Account` record (src/unnamed/part_005): the singleton
account row.  `brandColors` is carried as an opaque JSON string. -/
structure Account where
  id : String
  dropboxAccessToken : Option String
  dropboxRefreshToken : Option String
  dropboxTokenExpiresAt : Option Int
  brandLogo : Option String
  brandColors : String
  createdAt : Int
  updatedAt : Int
deriving Repr, DecidableEq

/-- The `updates` argument of `Account.update`: an outer `none` models a
JS `undefined` field (not supplied), `some v` a supplied value `v` (which
may itself be `null` for the nullable columns). -/
structure AccountUpdates where
  dropboxAccessToken : Option (Option String)
  dropboxRefreshToken : Option (Option String)
  dropboxTokenExpiresAt : Option (Option Int)
  brandLogo : Option (Option String)
  brandColors : Option String
deriving Repr, DecidableEq

/-- `Account.update` (src/unnamed/part_005 lines 277-315): merge the
supplied fields over the existing ones (`!== undefined ? updates.x :
this.x`), stamp `updatedAt = now`; `id` and `createdAt` are not part of
the UPDATE statement and stay untouched. -/
def Account.update (a : Account) (updates : AccountUpdates) (now : Int) : Account :=
  { id := a.id
    dropboxAccessToken := updates.dropboxAccessToken.getD a.dropboxAccessToken
    dropboxRefreshToken := updates.dropboxRefreshToken.getD a.dropboxRefreshToken
    dropboxTokenExpiresAt := updates.dropboxTokenExpiresAt.getD a.dropboxTokenExpiresAt
    brandLogo := updates.brandLogo.getD a.brandLogo
    brandColors := updates.brandColors.getD a.brandColors
    createdAt := a.createdAt
    updatedAt := now }

/-- Parsed body of a successful `POST /oauth2/token` refresh response. -/
structure RefreshResponse where
  access_token : String
  refresh_token : Option String
  token_type : String
  expires_in : Int
  scope : String
deriving Repr, DecidableEq

/-- The object returned by `DropboxService.refreshAccessToken` on
success (dropboxService.js lines 144-152), with `expires_at` as a
millisecond timestamp. -/
structure RefreshResult where
  access_token : String
  refresh_token : Option String
  token_type : String
  expires_in : Int
  expires_at : Int
  scope : String
deriving Repr, DecidableEq

/-- `DropboxService.refreshAccessToken` (dropboxService.js lines
120-157).  Returns the outcome together with the number of network calls
made (0 when a guard throws before the axios POST, 1 otherwise).
`available` is `this.isAvailable()`. -/
def refreshAccessToken (available : Bool) (refreshToken : Option String)
    (net : Except String RefreshResponse) (now : Int) :
    Except String RefreshResult × Nat :=
  if !available then
    (Except.error "Dropbox OAuth credentials not configured", 0)
  else if falsyStr refreshToken then
    (Except.error "Refresh token is required", 0)
  else
    match net with
    | Except.error cause =>
        (Except.error ("Failed to refresh access token: " ++ cause), 1)
    | Except.ok d =>
        (Except.ok
          { access_token := d.access_token
            refresh_token :=
              if falsyStr d.refresh_token then refreshToken else d.refresh_token
            token_type := d.token_type
            expires_in := d.expires_in
            expires_at := now + d.expires_in * 1000
            scope := d.scope }, 1)

/-- The `throw new Error(...)` sites reachable from
`DropboxService.ensureValidToken`, one constructor per site. -/
inductive TokenErr where
  /-- dropboxService.js line 221: `No access token available`. -/
  | noAccessToken
  /-- dropboxService.js line 229: `Access token expired and no refresh
  token available. Please re-authenticate.` -/
  | reauthRequired
  /-- dropboxService.js line 248: `Token refresh failed: ...`, wrapping
  the caught error's message. -/
  | refreshFailed (message : String)
deriving Repr, DecidableEq

instance {ε α : Type} [DecidableEq ε] [DecidableEq α] : DecidableEq (Except ε α) :=
  fun x y =>
    match x, y with
    | Except.error a, Except.error b => decidable_of_iff (a = b) (by simp)
    | Except.error _, Except.ok _ => Decidable.isFalse (by simp)
    | Except.ok _, Except.error _ => Decidable.isFalse (by simp)
    | Except.ok a, Except.ok b => decidable_of_iff (a = b) (by simp)

/-- Observable outcome of one `ensureValidToken` call: the returned
account or thrown error, the number of OAuth-exchanger (axios) calls
made, and the account records persisted via `account.update`. -/
structure Run where
  result : Except TokenErr Account
  exchangerCalls : Nat
  saves : List Account
deriving Repr, DecidableEq

/-- `DropboxService.ensureValidToken` (dropboxService.js lines 219-254).
The staleness check uses the default buffer of 5 minutes; on refresh the
account is updated with the three token fields only and the updated
record is both persisted and returned. -/
def ensureValidToken (available : Bool) (account : Option Account)
    (net : Except String RefreshResponse) (now : Int) : Run :=
  match account with
  | none => ⟨Except.error TokenErr.noAccessToken, 0, []⟩
  | some account =>
    if falsyStr account.dropboxAccessToken then
      ⟨Except.error TokenErr.noAccessToken, 0, []⟩
    else if isTokenExpired account.dropboxTokenExpiresAt 5 now then
      if falsyStr account.dropboxRefreshToken then
        ⟨Except.error TokenErr.reauthRequired, 0, []⟩
      else
        match refreshAccessToken available account.dropboxRefreshToken net now with
        | (Except.error msg, calls) =>
            ⟨Except.error (TokenErr.refreshFailed ("Token refresh failed: " ++ msg)),
              calls, []⟩
        | (Except.ok r, calls) =>
            let updated := account.update
              { dropboxAccessToken := some (some r.access_token)
                dropboxRefreshToken := some r.refresh_token
                dropboxTokenExpiresAt := some (some r.expires_at)
                brandLogo := none
                brandColors := none } now
            ⟨Except.ok updated, calls, [updated]⟩
    else
      ⟨Except.ok account, 0, []⟩

/-- The account record produced by a successful refresh inside
`ensureValidToken`: new access token, refresh token taken from the
response when truthy and kept otherwise, expiry `now + expires_in`
seconds, `updatedAt` stamped, all other fields untouched. -/
def refreshedAccount (a : Account) (d : RefreshResponse) (now : Int) : Account :=
  { id := a.id
    dropboxAccessToken := some d.access_token
    dropboxRefreshToken :=
      if falsyStr d.refresh_token then a.dropboxRefreshToken else d.refresh_token
    dropboxTokenExpiresAt := some (now + d.expires_in * 1000)
    brandLogo := a.brandLogo
    brandColors := a.brandColors
    createdAt := a.createdAt
    updatedAt := now }

example :
    ensureValidToken true
      (some ⟨"acct_1", some "A1", some "R1", some 0, none, "\x7b\x7d", 0, 0⟩)
      (Except.ok ⟨"A2", none, "bearer", 3600, "files"⟩) 1000000
      = ⟨Except.ok ⟨"acct_1", some "A2", some "R1", some 4600000, none, "\x7b\x7d", 0, 1000000⟩,
          1, [⟨"acct_1", some "A2", some "R1", some 4600000, none, "\x7b\x7d", 0, 1000000⟩]⟩ := by
  decide

/-! ### Case lemmas for `ensureValidToken` -/

lemma ensureValidToken_no_account (avail : Bool) (net : Except String RefreshResponse)
    (now : Int) :
    ensureValidToken avail none net now
      = ⟨Except.error TokenErr.noAccessToken, 0, []⟩ := rfl

lemma ensureValidToken_falsy_access (avail : Bool) (a : Account)
    (net : Except String RefreshResponse) (now : Int)
    (h : falsyStr a.dropboxAccessToken = true) :
    ensureValidToken avail (some a) net now
      = ⟨Except.error TokenErr.noAccessToken, 0, []⟩ := by
  simp [ensureValidToken, h]

lemma ensureValidToken_fresh (avail : Bool) (a : Account)
    (net : Except String RefreshResponse) (now : Int)
    (h1 : falsyStr a.dropboxAccessToken = false)
    (h2 : isTokenExpired a.dropboxTokenExpiresAt 5 now = false) :
    ensureValidToken avail (some a) net now = ⟨Except.ok a, 0, []⟩ := by
  simp [ensureValidToken, h1, h2]

lemma ensureValidToken_no_refresh_token (avail : Bool) (a : Account)
    (net : Except String RefreshResponse) (now : Int)
    (h1 : falsyStr a.dropboxAccessToken = false)
    (h2 : isTokenExpired a.dropboxTokenExpiresAt 5 now = true)
    (h3 : falsyStr a.dropboxRefreshToken = true) :
    ensureValidToken avail (some a) net now
      = ⟨Except.error TokenErr.reauthRequired, 0, []⟩ := by
  simp [ensureValidToken, h1, h2, h3]

lemma ensureValidToken_unconfigured (a : Account)
    (net : Except String RefreshResponse) (now : Int)
    (h1 : falsyStr a.dropboxAccessToken = false)
    (h2 : isTokenExpired a.dropboxTokenExpiresAt 5 now = true)
    (h3 : falsyStr a.dropboxRefreshToken = false) :
    ensureValidToken false (some a) net now
      = ⟨Except.error (TokenErr.refreshFailed
            "Token refresh failed: Dropbox OAuth credentials not configured"), 0, []⟩ := by
  simp [ensureValidToken, refreshAccessToken, h1, h2, h3]

lemma ensureValidToken_net_error (a : Account) (cause : String) (now : Int)
    (h1 : falsyStr a.dropboxAccessToken = false)
    (h2 : isTokenExpired a.dropboxTokenExpiresAt 5 now = true)
    (h3 : falsyStr a.dropboxRefreshToken = false) :
    ensureValidToken true (some a) (Except.error cause) now
      = ⟨Except.error (TokenErr.refreshFailed
            ("Token refresh failed: " ++ ("Failed to refresh access token: " ++ cause))), 1, []⟩ := by
  simp [ensureValidToken, refreshAccessToken, h1, h2, h3]

lemma ensureValidToken_refresh_ok (a : Account) (d : RefreshResponse) (now : Int)
    (h1 : falsyStr a.dropboxAccessToken = false)
    (h2 : isTokenExpired a.dropboxTokenExpiresAt 5 now = true)
    (h3 : falsyStr a.dropboxRefreshToken = false) :
    ensureValidToken true (some a) (Except.ok d) now
      = ⟨Except.ok (refreshedAccount a d now), 1, [refreshedAccount a d now]⟩ := by
  simp only [ensureValidToken, refreshAccessToken, h1, h2, h3, Bool.not_true,
    Bool.false_eq_true, if_false, if_true, Bool.true_eq_false]
  rfl

/-! ### Claims -/

/-- C1 counterexample: the credential
`{accessToken: null, refreshToken: "R1", expiresAt: 0}` is stale at
`now = 1000000` (`0 ≤ now + 5 min`) and its refresh token is present,
yet `ensureValidToken` makes zero exchanger calls, persists nothing and
throws `No access token available` instead of refreshing — so the claim,
quantified over every stored credential meeting its two conditions,
fails here. -/
theorem c1_counterexample :
    isTokenExpired (some 0) 5 1000000 = true ∧
    falsyStr (some "R1") = false ∧
    ensureValidToken true
      (some ⟨"acct_1", none, some "R1", some 0, none, "\x7b\x7d", 0, 0⟩)
      (Except.ok ⟨"A2", none, "bearer", 3600, "files"⟩) 1000000
      = ⟨Except.error TokenErr.noAccessToken, 0, []⟩ := by
  decide

/-- C1 (amended): for every stored credential with a truthy access token
whose expiry is stale and whose refresh token is truthy, when the
exchange succeeds `ensureValidToken` invokes the exchanger exactly once,
persists the updated account (new access token, expiry `now +
expiresInSeconds`) via the store, and the persisted record is exactly
the returned one. -/
theorem c1_stale_refresh_persists (a : Account) (d : RefreshResponse) (now : Int)
    (h1 : falsyStr a.dropboxAccessToken = false)
    (h2 : isTokenExpired a.dropboxTokenExpiresAt 5 now = true)
    (h3 : falsyStr a.dropboxRefreshToken = false) :
    (ensureValidToken true (some a) (Except.ok d) now).exchangerCalls = 1 ∧
    ∃ u, (ensureValidToken true (some a) (Except.ok d) now).result = Except.ok u ∧
      (ensureValidToken true (some a) (Except.ok d) now).saves = [u] ∧
      u.dropboxAccessToken = some d.access_token ∧
      u.dropboxTokenExpiresAt = some (now + d.expires_in * 1000) := by
  rw [ensureValidToken_refresh_ok a d now h1 h2 h3]
  exact ⟨rfl, refreshedAccount a d now, rfl, rfl, rfl, rfl⟩

/-- C1 witness: the amended theorem applied to a concrete stale
credential and a concrete successful exchange. -/
theorem c1_witness :
    falsyStr (some "A1") = false ∧
    isTokenExpired (some 0) 5 1000000 = true ∧
    falsyStr (some "R1") = false ∧
    ((ensureValidToken true
        (some ⟨"acct_1", some "A1", some "R1", some 0, none, "\x7b\x7d", 0, 0⟩)
        (Except.ok ⟨"A2", none, "bearer", 3600, "files"⟩) 1000000).exchangerCalls = 1 ∧
      ∃ u, (ensureValidToken true
        (some ⟨"acct_1", some "A1", some "R1", some 0, none, "\x7b\x7d", 0, 0⟩)
        (Except.ok ⟨"A2", none, "bearer", 3600, "files"⟩) 1000000).result = Except.ok u ∧
        (ensureValidToken true
          (some ⟨"acct_1", some "A1", some "R1", some 0, none, "\x7b\x7d", 0, 0⟩)
          (Except.ok ⟨"A2", none, "bearer", 3600, "files"⟩) 1000000).saves = [u] ∧
        u.dropboxAccessToken = some "A2" ∧
        u.dropboxTokenExpiresAt = some (1000000 + 3600 * 1000)) :=
  ⟨by decide, by decide, by decide,
    c1_stale_refresh_persists
      ⟨"acct_1", some "A1", some "R1", some 0, none, "\x7b\x7d", 0, 0⟩
      ⟨"A2", none, "bearer", 3600, "files"⟩ 1000000
      (by decide) (by decide) (by decide)⟩

/-- C2 counterexample: the credential
`{accessToken: null, refreshToken: "R1", expiresAt: 9999999999}` has
`expiresAt` strictly later than `now + buffer` at `now = 0`, yet
`ensureValidToken` throws `No access token available` instead of
returning the cached access token. -/
theorem c2_counterexample :
    (0 + 5 * 60 * 1000 : Int) < 9999999999 ∧
    ensureValidToken true
      (some ⟨"acct_1", none, some "R1", some 9999999999, none, "\x7b\x7d", 0, 0⟩)
      (Except.ok ⟨"A2", none, "bearer", 3600, "files"⟩) 0
      = ⟨Except.error TokenErr.noAccessToken, 0, []⟩ := by
  decide

/-- C2 (amended): for every stored credential with a truthy access token
whose expiry is strictly later than `now + 5 min`, `ensureValidToken`
returns the account unchanged, makes no exchanger call and performs no
store write, for any exchanger behaviour and any configuration state. -/
theorem c2_fresh_no_side_effects (avail : Bool) (a : Account)
    (net : Except String RefreshResponse) (now e : Int)
    (h1 : falsyStr a.dropboxAccessToken = false)
    (he : a.dropboxTokenExpiresAt = some e)
    (hlt : now + 5 * 60 * 1000 < e) :
    ensureValidToken avail (some a) net now = ⟨Except.ok a, 0, []⟩ := by
  refine ensureValidToken_fresh avail a net now h1 ?_
  simp only [isTokenExpired, he, decide_eq_false_iff_not]
  omega

/-- C2 witness: the amended theorem applied to a concrete fresh
credential. -/
theorem c2_witness :
    falsyStr (some "A1") = false ∧
    (0 + 5 * 60 * 1000 : Int) < 9999999999 ∧
    ensureValidToken true
      (some ⟨"acct_1", some "A1", some "R1", some 9999999999, none, "\x7b\x7d", 0, 0⟩)
      (Except.ok ⟨"A2", none, "bearer", 3600, "files"⟩) 0
      = ⟨Except.ok ⟨"acct_1", some "A1", some "R1", some 9999999999, none, "\x7b\x7d", 0, 0⟩, 0, []⟩ :=
  ⟨by decide, by decide,
    c2_fresh_no_side_effects true
      ⟨"acct_1", some "A1", some "R1", some 9999999999, none, "\x7b\x7d", 0, 0⟩
      (Except.ok ⟨"A2", none, "bearer", 3600, "files"⟩) 0 9999999999
      (by decide) rfl (by decide)⟩

/-- C3 counterexample: the credential
`{accessToken: null, refreshToken: null, expiresAt: null}` is stale and
has no refresh token, yet `ensureValidToken` fails with the
`No access token available` error (the no-credential error), not the
`Please re-authenticate` error the claim requires. -/
theorem c3_counterexample :
    isTokenExpired none 5 1000000 = true ∧
    falsyStr (none : Option String) = true ∧
    ensureValidToken true
      (some ⟨"acct_1", none, none, none, none, "\x7b\x7d", 0, 0⟩)
      (Except.ok ⟨"A2", none, "bearer", 3600, "files"⟩) 1000000
      = ⟨Except.error TokenErr.noAccessToken, 0, []⟩ ∧
    TokenErr.noAccessToken ≠ TokenErr.reauthRequired := by
  decide

/-- C3 (amended): for every stale credential with a truthy access token
whose refresh token is null or empty, `ensureValidToken` fails with the
re-authentication error, makes no exchanger call and performs no store
write. -/
theorem c3_no_refresh_token_reauth (avail : Bool) (a : Account)
    (net : Except String RefreshResponse) (now : Int)
    (h1 : falsyStr a.dropboxAccessToken = false)
    (h2 : isTokenExpired a.dropboxTokenExpiresAt 5 now = true)
    (h3 : falsyStr a.dropboxRefreshToken = true) :
    ensureValidToken avail (some a) net now
      = ⟨Except.error TokenErr.reauthRequired, 0, []⟩ :=
  ensureValidToken_no_refresh_token avail a net now h1 h2 h3

/-- C3 witness: the amended theorem applied to a concrete stale
credential with an empty refresh token. -/
theorem c3_witness :
    falsyStr (some "A1") = false ∧
    isTokenExpired (some 0) 5 1000000 = true ∧
    falsyStr (some "") = true ∧
    ensureValidToken true
      (some ⟨"acct_1", some "A1", some "", some 0, none, "\x7b\x7d", 0, 0⟩)
      (Except.ok ⟨"A2", none, "bearer", 3600, "files"⟩) 1000000
      = ⟨Except.error TokenErr.reauthRequired, 0, []⟩ :=
  ⟨by decide, by decide, by decide,
    c3_no_refresh_token_reauth true
      ⟨"acct_1", some "A1", some "", some 0, none, "\x7b\x7d", 0, 0⟩
      (Except.ok ⟨"A2", none, "bearer", 3600, "files"⟩) 1000000
      (by decide) (by decide) (by decide)⟩

/-- C4 (confirmed): for every stale credential with a refresh token, if
the exchanger's network call fails, `ensureValidToken` surfaces an
error and performs no store write, so the persisted credential is
unchanged — for any configuration state and any access-token value. -/
theorem c4_failure_preserves_state (avail : Bool) (a : Account) (cause : String) (now : Int)
    (h2 : isTokenExpired a.dropboxTokenExpiresAt 5 now = true)
    (h3 : falsyStr a.dropboxRefreshToken = false) :
    (∃ e, (ensureValidToken avail (some a) (Except.error cause) now).result
        = Except.error e) ∧
    (ensureValidToken avail (some a) (Except.error cause) now).saves = [] := by
  cases h1 : falsyStr a.dropboxAccessToken with
  | true =>
      rw [ensureValidToken_falsy_access avail a _ now h1]
      exact ⟨⟨_, rfl⟩, rfl⟩
  | false =>
      cases avail with
      | false =>
          rw [ensureValidToken_unconfigured a _ now h1 h2 h3]
          exact ⟨⟨_, rfl⟩, rfl⟩
      | true =>
          rw [ensureValidToken_net_error a cause now h1 h2 h3]
          exact ⟨⟨_, rfl⟩, rfl⟩

/-- C4 witness: the theorem applied to a concrete stale credential and a
timed-out exchange. -/
theorem c4_witness :
    isTokenExpired (some 0) 5 1000000 = true ∧
    falsyStr (some "R1") = false ∧
    ((∃ e, (ensureValidToken true
        (some ⟨"acct_1", some "A1", some "R1", some 0, none, "\x7b\x7d", 0, 0⟩)
        (Except.error "timeout of 10000ms exceeded") 1000000).result = Except.error e) ∧
      (ensureValidToken true
        (some ⟨"acct_1", some "A1", some "R1", some 0, none, "\x7b\x7d", 0, 0⟩)
        (Except.error "timeout of 10000ms exceeded") 1000000).saves = []) :=
  ⟨by decide, by decide,
    c4_failure_preserves_state true
      ⟨"acct_1", some "A1", some "R1", some 0, none, "\x7b\x7d", 0, 0⟩
      "timeout of 10000ms exceeded" 1000000 (by decide) (by decide)⟩

/-- C5 (confirmed): after a successful refresh, the persisted account's
refresh token is the previous one when the response carried no (truthy)
new refresh token, and is exactly the response's refresh token when it
carried one — the old value is overwritten, not retained. -/
theorem c5_refresh_token_rotation (a : Account) (d : RefreshResponse) (now : Int)
    (h1 : falsyStr a.dropboxAccessToken = false)
    (h2 : isTokenExpired a.dropboxTokenExpiresAt 5 now = true)
    (h3 : falsyStr a.dropboxRefreshToken = false) :
    ∃ u, (ensureValidToken true (some a) (Except.ok d) now).result = Except.ok u ∧
      (ensureValidToken true (some a) (Except.ok d) now).saves = [u] ∧
      (falsyStr d.refresh_token = true → u.dropboxRefreshToken = a.dropboxRefreshToken) ∧
      (falsyStr d.refresh_token = false → u.dropboxRefreshToken = d.refresh_token) := by
  rw [ensureValidToken_refresh_ok a d now h1 h2 h3]
  refine ⟨refreshedAccount a d now, rfl, rfl, ?_, ?_⟩ <;>
    intro h <;> simp [refreshedAccount, h]

/-- C5 witness: the theorem applied to a concrete refresh whose response
carries no new refresh token, so the stored one is retained. -/
theorem c5_witness :
    falsyStr (some "A1") = false ∧
    isTokenExpired (some 0) 5 1000000 = true ∧
    falsyStr (some "R1") = false ∧
    (∃ u, (ensureValidToken true
        (some ⟨"acct_1", some "A1", some "R1", some 0, none, "\x7b\x7d", 0, 0⟩)
        (Except.ok ⟨"A2", none, "bearer", 3600, "files"⟩) 1000000).result = Except.ok u ∧
      (ensureValidToken true
        (some ⟨"acct_1", some "A1", some "R1", some 0, none, "\x7b\x7d", 0, 0⟩)
        (Except.ok ⟨"A2", none, "bearer", 3600, "files"⟩) 1000000).saves = [u] ∧
      (falsyStr (none : Option String) = true → u.dropboxRefreshToken = some "R1") ∧
      (falsyStr (none : Option String) = false → u.dropboxRefreshToken = none)) :=
  ⟨by decide, by decide, by decide,
    c5_refresh_token_rotation
      ⟨"acct_1", some "A1", some "R1", some 0, none, "\x7b\x7d", 0, 0⟩
      ⟨"A2", none, "bearer", 3600, "files"⟩ 1000000
      (by decide) (by decide) (by decide)⟩

/-- Constructor tag of a `TokenErr`: the error class a caller can
distinguish without parsing message text. -/
def tokenErrKind : TokenErr → Nat
  | TokenErr.noAccessToken => 0
  | TokenErr.reauthRequired => 1
  | TokenErr.refreshFailed _ => 2

/-- Error class of a run's outcome, `none` when it succeeded. -/
def runErrKind (r : Run) : Option Nat :=
  match r.result with
  | Except.error e => some (tokenErrKind e)
  | Except.ok _ => none

/-- C6 counterexample: a timed-out exchange and a provider rejection of
the refresh token, on the same stale credential, both surface as the
single `Token refresh failed: ...` error — the same error class, with
only the interpolated message text differing — so the two outcomes are
not surfaced as distinct caller-distinguishable error types. -/
theorem c6_counterexample :
    (ensureValidToken true
      (some ⟨"acct_1", some "A1", some "R1", some 0, none, "\x7b\x7d", 0, 0⟩)
      (Except.error "timeout of 10000ms exceeded") 1000000).result
      = Except.error (TokenErr.refreshFailed
          "Token refresh failed: Failed to refresh access token: timeout of 10000ms exceeded") ∧
    (ensureValidToken true
      (some ⟨"acct_1", some "A1", some "R1", some 0, none, "\x7b\x7d", 0, 0⟩)
      (Except.error "refresh token is invalid or revoked") 1000000).result
      = Except.error (TokenErr.refreshFailed
          "Token refresh failed: Failed to refresh access token: refresh token is invalid or revoked") ∧
    runErrKind (ensureValidToken true
      (some ⟨"acct_1", some "A1", some "R1", some 0, none, "\x7b\x7d", 0, 0⟩)
      (Except.error "timeout of 10000ms exceeded") 1000000)
      = runErrKind (ensureValidToken true
        (some ⟨"acct_1", some "A1", some "R1", some 0, none, "\x7b\x7d", 0, 0⟩)
        (Except.error "refresh token is invalid or revoked") 1000000) := by
  decide

/-- C6 (amended): every refresh-exchange failure, whatever its cause —
network timeout or provider rejection alike — is surfaced to the caller
as the one generic `Token refresh failed: ...` error wrapping the
cause's message; the code does not classify failures by cause into
distinct error types. -/
theorem c6_single_failure_class (a : Account) (cause : String) (now : Int)
    (h1 : falsyStr a.dropboxAccessToken = false)
    (h2 : isTokenExpired a.dropboxTokenExpiresAt 5 now = true)
    (h3 : falsyStr a.dropboxRefreshToken = false) :
    (ensureValidToken true (some a) (Except.error cause) now).result
      = Except.error (TokenErr.refreshFailed
          ("Token refresh failed: " ++ ("Failed to refresh access token: " ++ cause))) := by
  rw [ensureValidToken_net_error a cause now h1 h2 h3]

/-- C6 witness: the amended theorem applied to a concrete stale
credential and a rejected refresh token. -/
theorem c6_witness :
    falsyStr (some "A1") = false ∧
    isTokenExpired (some 0) 5 1000000 = true ∧
    falsyStr (some "R1") = false ∧
    (ensureValidToken true
      (some ⟨"acct_1", some "A1", some "R1", some 0, none, "\x7b\x7d", 0, 0⟩)
      (Except.error "invalid_grant") 1000000).result
      = Except.error (TokenErr.refreshFailed
          ("Token refresh failed: " ++ ("Failed to refresh access token: " ++ "invalid_grant"))) :=
  ⟨by decide, by decide, by decide,
    c6_single_failure_class
      ⟨"acct_1", some "A1", some "R1", some 0, none, "\x7b\x7d", 0, 0⟩
      "invalid_grant" 1000000 (by decide) (by decide) (by decide)⟩

/-- C7 counterexample: the credential
`{accessToken: null, refreshToken: "R1", expiresAt: 0}` has a usable
refresh token and a working exchanger, yet `ensureValidToken` throws
`No access token available` — the very error raised when no credential
exists at all — without attempting the refresh exchange. -/
theorem c7_counterexample :
    falsyStr (some "R1") = false ∧
    ensureValidToken true
      (some ⟨"acct_1", none, some "R1", some 0, none, "\x7b\x7d", 0, 0⟩)
      (Except.ok ⟨"A2", some "R2", "bearer", 3600, "files"⟩) 1000000
      = ⟨Except.error TokenErr.noAccessToken, 0, []⟩ ∧
    ensureValidToken true none
      (Except.ok ⟨"A2", some "R2", "bearer", 3600, "files"⟩) 1000000
      = ⟨Except.error TokenErr.noAccessToken, 0, []⟩ := by
  decide

/-- C7 (amended): whenever the stored credential's access token is null
or empty, `ensureValidToken` fails with the `No access token available`
error without attempting the refresh exchange or writing to the store,
even when a usable refresh token is present — and this is the very same
error produced when no credential exists at all. -/
theorem c7_null_access_token_fails (avail : Bool) (a : Account)
    (net : Except String RefreshResponse) (now : Int)
    (h : falsyStr a.dropboxAccessToken = true) :
    ensureValidToken avail (some a) net now
      = ⟨Except.error TokenErr.noAccessToken, 0, []⟩ ∧
    ensureValidToken avail none net now
      = ⟨Except.error TokenErr.noAccessToken, 0, []⟩ :=
  ⟨ensureValidToken_falsy_access avail a net now h,
    ensureValidToken_no_account avail net now⟩

/-- C7 witness: the amended theorem applied to a concrete credential
with a null access token and a present refresh token. -/
theorem c7_witness :
    falsyStr (none : Option String) = true ∧
    (ensureValidToken true
      (some ⟨"acct_1", none, some "R1", some 0, none, "\x7b\x7d", 0, 0⟩)
      (Except.ok ⟨"A2", some "R2", "bearer", 3600, "files"⟩) 1000000
      = ⟨Except.error TokenErr.noAccessToken, 0, []⟩ ∧
    ensureValidToken true none
      (Except.ok ⟨"A2", some "R2", "bearer", 3600, "files"⟩) 1000000
      = ⟨Except.error TokenErr.noAccessToken, 0, []⟩) :=
  ⟨by decide,
    c7_null_access_token_fails true
      ⟨"acct_1", none, some "R1", some 0, none, "\x7b\x7d", 0, 0⟩
      (Except.ok ⟨"A2", some "R2", "bearer", 3600, "files"⟩) 1000000 (by decide)⟩

/-- C8 (confirmed): the frontend duplicate of the staleness predicate
returns the same boolean as the backend `isTokenExpired` on every
`(expiresAt, buffer, now)` input, a null expiry is classified as already
expired by both, and for every credential with a truthy access token the
fast path of `ensureValidToken` (return the account unchanged with no
exchanger call and no store write) is taken exactly when `isTokenExpired`
at the default 5-minute buffer is false — the internal staleness check
agrees with the exposed predicate. -/
theorem c8_staleness_single_source (e : Option Int) (b now : Int) (avail : Bool)
    (a : Account) (net : Except String RefreshResponse) :
    isTokenExpiredFrontend e b now = isTokenExpired e b now ∧
    isTokenExpired none b now = true ∧
    isTokenExpiredFrontend none b now = true ∧
    (falsyStr a.dropboxAccessToken = false →
      (ensureValidToken avail (some a) net now = ⟨Except.ok a, 0, []⟩ ↔
        isTokenExpired a.dropboxTokenExpiresAt 5 now = false)) := by
  refine ⟨rfl, rfl, rfl, fun h1 => ⟨fun hrun => ?_, fun hEx =>
    ensureValidToken_fresh avail a net now h1 hEx⟩⟩
  cases hEx : isTokenExpired a.dropboxTokenExpiresAt 5 now with
  | false => rfl
  | true =>
      exfalso
      cases h3 : falsyStr a.dropboxRefreshToken with
      | true =>
          rw [ensureValidToken_no_refresh_token avail a net now h1 hEx h3] at hrun
          simp [Run.mk.injEq] at hrun
      | false =>
          cases avail with
          | false =>
              rw [ensureValidToken_unconfigured a net now h1 hEx h3] at hrun
              simp [Run.mk.injEq] at hrun
          | true =>
              cases net with
              | error cause =>
                  rw [ensureValidToken_net_error a cause now h1 hEx h3] at hrun
                  simp [Run.mk.injEq] at hrun
              | ok d =>
                  rw [ensureValidToken_refresh_ok a d now h1 hEx h3] at hrun
                  simp [Run.mk.injEq] at hrun

/-- C8 witness: the theorem applied at concrete inputs — the frontend
and backend predicates agree and the fast-path equivalence holds for a
concrete fresh credential. -/
theorem c8_witness :
    isTokenExpiredFrontend (some 7) 2 3 = isTokenExpired (some 7) 2 3 ∧
    isTokenExpired none 2 3 = true ∧
    (ensureValidToken true
      (some ⟨"acct_1", some "A1", some "R1", some 1000000000, none, "\x7b\x7d", 0, 0⟩)
      (Except.ok ⟨"A2", none, "bearer", 3600, "files"⟩) 0
      = ⟨Except.ok ⟨"acct_1", some "A1", some "R1", some 1000000000, none, "\x7b\x7d", 0, 0⟩, 0, []⟩ ↔
      isTokenExpired (some 1000000000) 5 0 = false) :=
  ⟨(c8_staleness_single_source (some 7) 2 3 true
      ⟨"acct_1", some "A1", some "R1", some 1000000000, none, "\x7b\x7d", 0, 0⟩
      (Except.ok ⟨"A2", none, "bearer", 3600, "files"⟩)).1,
    (c8_staleness_single_source (some 7) 2 3 true
      ⟨"acct_1", some "A1", some "R1", some 1000000000, none, "\x7b\x7d", 0, 0⟩
      (Except.ok ⟨"A2", none, "bearer", 3600, "files"⟩)).2.1,
    (c8_staleness_single_source (some 7) 2 3 true
      ⟨"acct_1", some "A1", some "R1", some 1000000000, none, "\x7b\x7d", 0, 0⟩
      (Except.ok ⟨"A2", none, "bearer", 3600, "files"⟩)).2.2.2 (by decide)⟩

/-- C10 (confirmed): when `ensureValidToken` refreshes and persists the
account, every field other than the three token fields and `updatedAt` —
in particular `id`, `brandLogo`, `brandColors` and `createdAt` — is
unchanged in the persisted record, which is exactly the returned one;
`Account.update` merges only the supplied fields. -/
theorem c10_refresh_frame (a : Account) (d : RefreshResponse) (now : Int)
    (h1 : falsyStr a.dropboxAccessToken = false)
    (h2 : isTokenExpired a.dropboxTokenExpiresAt 5 now = true)
    (h3 : falsyStr a.dropboxRefreshToken = false) :
    ∃ u, (ensureValidToken true (some a) (Except.ok d) now).result = Except.ok u ∧
      (ensureValidToken true (some a) (Except.ok d) now).saves = [u] ∧
      u.id = a.id ∧ u.brandLogo = a.brandLogo ∧ u.brandColors = a.brandColors ∧
      u.createdAt = a.createdAt ∧ u.updatedAt = now := by
  rw [ensureValidToken_refresh_ok a d now h1 h2 h3]
  exact ⟨refreshedAccount a d now, rfl, rfl, rfl, rfl, rfl, rfl, rfl⟩

/-- C10 witness: the theorem applied to a concrete account carrying a
brand logo and brand colors through a refresh. -/
theorem c10_witness :
    falsyStr (some "A1") = false ∧
    isTokenExpired (some 0) 5 1000000 = true ∧
    falsyStr (some "R1") = false ∧
    (∃ u, (ensureValidToken true
        (some ⟨"acct_1", some "A1", some "R1", some 0, some "logo.png", "\x7b\x7d", 42, 50⟩)
        (Except.ok ⟨"A2", none, "bearer", 3600, "files"⟩) 1000000).result = Except.ok u ∧
      (ensureValidToken true
        (some ⟨"acct_1", some "A1", some "R1", some 0, some "logo.png", "\x7b\x7d", 42, 50⟩)
        (Except.ok ⟨"A2", none, "bearer", 3600, "files"⟩) 1000000).saves = [u] ∧
      u.id = "acct_1" ∧ u.brandLogo = some "logo.png" ∧ u.brandColors = "\x7b\x7d" ∧
      u.createdAt = 42 ∧ u.updatedAt = 1000000) :=
  ⟨by decide, by decide, by decide,
    c10_refresh_frame
      ⟨"acct_1", some "A1", some "R1", some 0, some "logo.png", "\x7b\x7d", 42, 50⟩
      ⟨"A2", none, "bearer", 3600, "files"⟩ 1000000
      (by decide) (by decide) (by decide)⟩
